import Mathlib

/-
Shallow embedding of the browser-side WebSocket connection manager of the
slimthicc_yt repository.  The current revision of the service lives in
src/unnamed/part_005 (class WebSocketService, embedded here as namespace V5);
an earlier revision lives in src/unnamed/part_004 (embedded as namespace V4).

JavaScript `Map<string, _>` fields are embedded as association lists with the
usual Map semantics (set replaces in place, delete removes the key, keys are
unique on every state reachable through the operations).  Opaque runtime
values — WebSocket objects, timer handles, callback functions — are embedded
as natural-number tokens; `Service.nextId` models the runtime's allocation of
fresh socket and timer handles.  Observable effects (opening and closing
sockets, arming and clearing timers, sending frames, invoking the data and
status callbacks) are recorded in an explicit action trace, and promise
settlement is tracked by the `Settle` type.
-/

namespace SlimThicc

/-- Association-list embedding of a JavaScript `Map<string, α>`. -/
abbrev SMap (α : Type) := List (String × α)

/-- `Map.get` (returning `undefined` as `none`). -/
def mfind {α : Type} : SMap α → String → Option α
  | [], _ => none
  | (k, v) :: rest, key => if k = key then some v else mfind rest key

/-- `Map.has`. -/
def mhas {α : Type} (m : SMap α) (k : String) : Bool :=
  (mfind m k).isSome

/-- `Map.set`: replace the binding in place if present, else append. -/
def mset {α : Type} : SMap α → String → α → SMap α
  | [], key, v => [(key, v)]
  | (k, w) :: rest, key, v =>
      if k = key then (key, v) :: rest else (k, w) :: mset rest key v

/-- `Map.delete`.  On states with unique keys (all states reachable through
the service operations) removing every binding of the key coincides with
removing the single one. -/
def mdel {α : Type} : SMap α → String → SMap α
  | [], _ => []
  | (k, v) :: rest, key =>
      if k = key then mdel rest key else (k, v) :: mdel rest key

/-- The per-task connection state of the service. -/
inductive ConnState
  | connecting
  | connected
  | disconnected
deriving DecidableEq, Repr

/-- `WebSocket.readyState`. -/
inductive ReadyState
  | CONNECTING
  | OPEN
  | CLOSING
  | CLOSED
deriving DecidableEq, Repr

/-- A JSON message as used by the service, with the fields the code ever
reads or writes; absent fields are `none`. -/
structure Msg where
  type : String
  timestamp : Option Nat := none
  status : Option String := none
  task_id : Option String := none
  client_timestamp : Option Nat := none
  error : Option String := none
  permanent : Option Bool := none
deriving DecidableEq, Repr

/-- An inbound wire frame: either unparseable text or a parsed message. -/
inductive Raw
  | malformed
  | parsed (m : Msg)
deriving DecidableEq, Repr

/-- Observable effects of the service, recorded as a trace. -/
inductive Action
  | openSocket (sock : Nat) (url : String)
  | closeSocket (sock : Nat) (code : Nat) (reason : String)
  | setTimer (id : Nat) (delayMs : Nat)
  | clearTimer (id : Nat)
  | send (sock : Nat) (m : Msg)
  | dataCb (cb : Nat) (m : Msg)
  | statusCb (cb : Nat) (s : String)
deriving DecidableEq, Repr

/-- Settlement state of the promise returned by `subscribeToTask`. -/
inductive Settle
  | pending
  | resolved
  | rejected
deriving DecidableEq, Repr

/-- State of the current-revision service (src/unnamed/part_005), one field
per `Map` field of the class plus `baseUrl` and the handle allocator. -/
structure Service where
  connections : SMap Nat := []
  callbacks : SMap Nat := []
  reconnectTimeouts : SMap Nat := []
  reconnectAttempts : SMap Nat := []
  pingIntervals : SMap Nat := []
  connectionState : SMap ConnState := []
  connectionStatusCallbacks : SMap Nat := []
  lastHeartbeatReceived : SMap Nat := []
  heartbeatCheckIntervals : SMap Nat := []
  baseUrl : String := ""
  nextId : Nat := 0
deriving DecidableEq, Repr

namespace V5

/-- `maxReconnectAttempts` of part_005. -/
def maxReconnectAttempts : Nat := 15

/-- `pingInterval` of part_005 (ms). -/
def pingIntervalMs : Nat := 10000

/-- `heartbeatTimeout` of part_005 (ms). -/
def heartbeatTimeoutMs : Nat := 25000

/-- `clearPingInterval` (part_005 lines 519-524). -/
def clearPingInterval (s : Service) (t : String) : Service × List Action :=
  match mfind s.pingIntervals t with
  | some id => ({ s with pingIntervals := mdel s.pingIntervals t }, [Action.clearTimer id])
  | none => (s, [])

/-- `clearHeartbeatChecker` (part_005 lines 479-484). -/
def clearHeartbeatChecker (s : Service) (t : String) : Service × List Action :=
  match mfind s.heartbeatCheckIntervals t with
  | some id => ({ s with heartbeatCheckIntervals := mdel s.heartbeatCheckIntervals t },
      [Action.clearTimer id])
  | none => (s, [])

/-- The terminal frame delivered when the retry budget is exhausted
(part_005 lines 569-574 and 625-630). -/
def terminalFrame : Msg :=
  { type := "connection_error", status := some "error",
    error := some "Failed to reconnect after 15 attempts.",
    permanent := some true }

/-- `attemptReconnect` (part_005 lines 553-641), synchronous part: clears a
pending backoff timer (without deleting its map entry), then either delivers
the terminal frame (counter at the ceiling) or increments the counter and
arms a backoff timer of `min (2 ^ attempts * 1000) 30000` ms. -/
def attemptReconnect (s : Service) (t : String) (cb : Nat) : Service × List Action :=
  let a0 : List Action :=
    match mfind s.reconnectTimeouts t with
    | some id => [Action.clearTimer id]
    | none => []
  let attempts := (mfind s.reconnectAttempts t).getD 0
  if attempts ≥ maxReconnectAttempts then
    let a1 : List Action :=
      if mhas s.callbacks t then [Action.dataCb cb terminalFrame] else []
    (s, a0 ++ a1)
  else
    let s1 := { s with reconnectAttempts := mset s.reconnectAttempts t (attempts + 1) }
    let delay := min (2 ^ attempts * 1000) 30000
    let timer := s1.nextId
    let s2 := { s1 with nextId := s1.nextId + 1,
                        reconnectTimeouts := mset s1.reconnectTimeouts t timer }
    (s2, a0 ++ [Action.setTimer timer delay])

/-- `unsubscribeFromTask` (part_005 lines 643-690). -/
def unsubscribeFromTask (s : Service) (t : String) : Service × List Action :=
  let s1 := { s with callbacks := mdel s.callbacks t,
                     connectionStatusCallbacks := mdel s.connectionStatusCallbacks t }
  let p2 :=
    match mfind s1.reconnectTimeouts t with
    | some id => ({ s1 with reconnectTimeouts := mdel s1.reconnectTimeouts t },
        [Action.clearTimer id])
    | none => (s1, ([] : List Action))
  let p3 := clearPingInterval p2.1 t
  let p4 := clearHeartbeatChecker p3.1 t
  let p5 :=
    match mfind p4.1.connections t with
    | some sock => ({ p4.1 with connections := mdel p4.1.connections t },
        [Action.closeSocket sock 1000 "Client unsubscribed"])
    | none => (p4.1, ([] : List Action))
  ({ p5.1 with reconnectAttempts := mdel p5.1.reconnectAttempts t,
               connectionState := mdel p5.1.connectionState t,
               lastHeartbeatReceived := mdel p5.1.lastHeartbeatReceived t },
   p2.2 ++ p3.2 ++ p4.2 ++ p5.2)

/-- `getConnectionState` (part_005 lines 722-724). -/
def getConnectionState (s : Service) (t : String) : ConnState :=
  (mfind s.connectionState t).getD ConnState.disconnected

/-- Result of the synchronous part of `subscribeToTask`: the state after the
executor ran, the action trace, the settlement of the returned promise, and
the freshly created socket and 15-second connection-timeout handles. -/
structure SubRes where
  st : Service
  trace : List Action
  settle : Settle
  sock : Nat
  cto : Nat
deriving DecidableEq, Repr

/-- `subscribeToTask` (part_005 lines 94-153), the part that runs
synchronously before any socket event: tear down an existing connection,
store the callbacks, mark the state `connecting` (notifying the status
callback passed in), zero the attempt counter, create and store the socket,
and arm the 15-second connection timeout.  The promise is still pending. -/
def subscribeToTaskSync (s : Service) (t : String) (cb : Nat) (scb : Option Nat) : SubRes :=
  let p0 := if mhas s.connections t then unsubscribeFromTask s t
            else (s, ([] : List Action))
  let s1 := { p0.1 with callbacks := mset p0.1.callbacks t cb }
  let s2 := match scb with
    | some c => { s1 with connectionStatusCallbacks := mset s1.connectionStatusCallbacks t c }
    | none => s1
  let s3 := { s2 with connectionState := mset s2.connectionState t ConnState.connecting }
  let a1 : List Action := match scb with
    | some c => [Action.statusCb c "connecting"]
    | none => []
  let s4 := { s3 with reconnectAttempts := mset s3.reconnectAttempts t 0 }
  let sock := s4.nextId
  let s5 := { s4 with nextId := s4.nextId + 1,
                      connections := mset s4.connections t sock }
  let cto := s5.nextId
  let s6 := { s5 with nextId := s5.nextId + 1 }
  ⟨s6,
   p0.2 ++ a1 ++ [Action.openSocket sock (s.baseUrl ++ "/" ++ t ++ "/ws"),
                  Action.setTimer cto 15000],
   Settle.pending, sock, cto⟩

/-- `ws.onopen` (part_005 lines 155-222): clear the connection timeout, mark
`connected`, stamp the heartbeat, notify the status callback, clear and drop
any pending backoff timer, zero the attempt counter, (re)arm the ping
interval and the heartbeat checker, arm the 500 ms hello-delay timer, and
resolve the subscribe promise. -/
def onopen (s : Service) (t : String) (cto : Nat) (now : Nat) (settle : Settle) :
    Service × List Action × Settle :=
  let a0 := [Action.clearTimer cto]
  let s1 := { s with connectionState := mset s.connectionState t ConnState.connected,
                     lastHeartbeatReceived := mset s.lastHeartbeatReceived t now }
  let a1 : List Action :=
    match mfind s1.connectionStatusCallbacks t with
    | some c => [Action.statusCb c "connected"]
    | none => []
  let p2 :=
    match mfind s1.reconnectTimeouts t with
    | some id => ({ s1 with reconnectTimeouts := mdel s1.reconnectTimeouts t },
        [Action.clearTimer id])
    | none => (s1, ([] : List Action))
  let s3 := { p2.1 with reconnectAttempts := mset p2.1.reconnectAttempts t 0 }
  let p4 := clearPingInterval s3 t
  let ping := p4.1.nextId
  let s5 := { p4.1 with nextId := p4.1.nextId + 1,
                        pingIntervals := mset p4.1.pingIntervals t ping }
  let p6 := clearHeartbeatChecker s5 t
  let s7 := { p6.1 with lastHeartbeatReceived := mset p6.1.lastHeartbeatReceived t now }
  let hb := s7.nextId
  let s8 := { s7 with nextId := s7.nextId + 1,
                      heartbeatCheckIntervals := mset s7.heartbeatCheckIntervals t hb }
  let hello := s8.nextId
  let s9 := { s8 with nextId := s8.nextId + 1 }
  (s9,
   a0 ++ a1 ++ p2.2 ++ p4.2 ++ [Action.setTimer ping pingIntervalMs] ++ p6.2 ++
     [Action.setTimer hb 15000, Action.setTimer hello 500],
   if settle = Settle.pending then Settle.resolved else settle)

/-- The 500 ms hello-delay timer firing (part_005 lines 188-219): when the
socket is still open, send the hello frame, arm a 5-second hello-ack timeout
and store its handle in `reconnectTimeouts` under key `"hello_ack_" ++ t`. -/
def helloTimerFire (s : Service) (t : String) (sock : Nat) (ready : ReadyState)
    (now : Nat) : Service × List Action :=
  if ready = ReadyState.OPEN then
    let ack := s.nextId
    ({ s with nextId := s.nextId + 1,
              reconnectTimeouts := mset s.reconnectTimeouts ("hello_ack_" ++ t) ack },
     [Action.send sock { type := "hello", task_id := some t, timestamp := some now },
      Action.setTimer ack 5000])
  else (s, [])

/-- The prologue of `ws.onmessage` (part_005 lines 226-241): stamp the
heartbeat for any received message, and if the recorded state is not
`connected`, promote it to `connected`, notifying the status callback. -/
def heartbeatPromote (s : Service) (t : String) (now : Nat) : Service × List Action :=
  let s1 := { s with lastHeartbeatReceived := mset s.lastHeartbeatReceived t now }
  if mfind s1.connectionState t ≠ some ConnState.connected then
    let s2 := { s1 with connectionState := mset s1.connectionState t ConnState.connected }
    match mfind s2.connectionStatusCallbacks t with
    | some c => (s2, [Action.statusCb c "connected"])
    | none => (s2, ([] : List Action))
  else (s1, ([] : List Action))

/-- `ws.onmessage` (part_005 lines 224-319): stamp the heartbeat, promote a
non-`connected` state to `connected` (notifying the status callback), then
parse and route: malformed frames are dropped; `pong` is consumed;
`hello_ack` clears and drops the stored hello-ack timeout; `connection_status`
goes to the status callback; `ping` is answered with a pong when the socket
is open; everything else goes to the data callback. -/
def onmessage (s : Service) (t : String) (sock : Nat) (ready : ReadyState)
    (raw : Raw) (now : Nat) : Service × List Action :=
  let p2 := heartbeatPromote s t now
  match raw with
  | Raw.malformed => p2
  | Raw.parsed d =>
    if d.type = "pong" then p2
    else if d.type = "hello_ack" then
      match mfind p2.1.reconnectTimeouts ("hello_ack_" ++ t) with
      | some id => ({ p2.1 with
            reconnectTimeouts := mdel p2.1.reconnectTimeouts ("hello_ack_" ++ t) },
          p2.2 ++ [Action.clearTimer id])
      | none => p2
    else if d.type = "connection_status" then
      match mfind p2.1.connectionStatusCallbacks t with
      | some c => (p2.1, p2.2 ++ [Action.statusCb c (d.status.getD "undefined")])
      | none => p2
    else if d.type = "ping" then
      if ready = ReadyState.OPEN then
        (p2.1, p2.2 ++ [Action.send sock
          { type := "pong", timestamp := d.timestamp,
            task_id := some t, client_timestamp := some now }])
      else p2
    else
      match mfind p2.1.callbacks t with
      | some cb => (p2.1, p2.2 ++ [Action.dataCb cb d])
      | none => p2

/-- `ws.onerror` (part_005 lines 321-346): mark `disconnected`, notify the
status callback, clear the connection timeout and the heartbeat checker, run
`attemptReconnect`, and reject the promise only when the connection map no
longer holds the task — which can never happen here, because
`subscribeToTask` stores the socket at creation time. -/
def onerror (s : Service) (t : String) (cb : Nat) (cto : Nat) (settle : Settle) :
    Service × List Action × Settle :=
  let s1 := { s with connectionState := mset s.connectionState t ConnState.disconnected }
  let a0 : List Action :=
    match mfind s1.connectionStatusCallbacks t with
    | some c => [Action.statusCb c "disconnected"]
    | none => []
  let p1 := clearHeartbeatChecker s1 t
  let p2 := attemptReconnect p1.1 t cb
  (p2.1,
   a0 ++ [Action.clearTimer cto] ++ p1.2 ++ p2.2,
   if mhas p2.1.connections t then settle
   else if settle = Settle.pending then Settle.rejected else settle)

/-- `ws.onclose` (part_005 lines 348-381): a no-op when the recorded state is
already `disconnected`; otherwise mark `disconnected`, notify the status
callback, clear the ping interval and heartbeat checker, and — only when the
close code differs from 1000 and a data callback is still registered — run
`attemptReconnect` with the stored callbacks. -/
def onclose (s : Service) (t : String) (code : Nat) : Service × List Action :=
  if mfind s.connectionState t = some ConnState.disconnected then (s, [])
  else
    let s1 := { s with connectionState := mset s.connectionState t ConnState.disconnected }
    let a0 : List Action :=
      match mfind s1.connectionStatusCallbacks t with
      | some c => [Action.statusCb c "disconnected"]
      | none => []
    let p2 := clearPingInterval s1 t
    let p3 := clearHeartbeatChecker p2.1 t
    if code = 1000 then (p3.1, a0 ++ p2.2 ++ p3.2)
    else
      match mfind p3.1.callbacks t with
      | some cb =>
          let p4 := attemptReconnect p3.1 t cb
          (p4.1, a0 ++ p2.2 ++ p3.2 ++ p4.2)
      | none => (p3.1, a0 ++ p2.2 ++ p3.2)

/-- The 15-second connection timeout firing (part_005 lines 141-153): only
when the state is still `connecting`, close the socket (`ws.close()` with no
arguments, wire code 1005), mark `disconnected`, notify the status callback
passed to `subscribeToTask`, and reject. -/
def connectionTimeoutFire (s : Service) (t : String) (sock : Nat)
    (scb : Option Nat) (settle : Settle) : Service × List Action × Settle :=
  if mfind s.connectionState t = some ConnState.connecting then
    let s1 := { s with connectionState := mset s.connectionState t ConnState.disconnected }
    let a0 : List Action := match scb with
      | some c => [Action.statusCb c "disconnected"]
      | none => []
    (s1, [Action.closeSocket sock 1005 ""] ++ a0,
     if settle = Settle.pending then Settle.rejected else settle)
  else (s, [], settle)

/-- `reconnect` (part_005 lines 727-777), the teardown performed between the
no-callback guard and the final `subscribeToTask` call: close and drop any
existing socket, clear the ping interval and heartbeat checker, reset the
attempt counter to 0, clear and drop any backoff timer, mark `connecting`
and notify the stored status callback. -/
def reconnectPre (s : Service) (t : String) : Service × List Action :=
  let p0 :=
    match mfind s.connections t with
    | some sock => ({ s with connections := mdel s.connections t },
        [Action.closeSocket sock 1000 "Manual reconnect"])
    | none => (s, ([] : List Action))
  let p1 := clearPingInterval p0.1 t
  let p2 := clearHeartbeatChecker p1.1 t
  let s3 := { p2.1 with reconnectAttempts := mset p2.1.reconnectAttempts t 0 }
  let p4 :=
    match mfind s3.reconnectTimeouts t with
    | some id => ({ s3 with reconnectTimeouts := mdel s3.reconnectTimeouts t },
        [Action.clearTimer id])
    | none => (s3, ([] : List Action))
  let s5 := { p4.1 with connectionState := mset p4.1.connectionState t ConnState.connecting }
  let a5 : List Action :=
    match mfind s5.connectionStatusCallbacks t with
    | some c => [Action.statusCb c "connecting"]
    | none => []
  (s5, p0.2 ++ p1.2 ++ p2.2 ++ p4.2 ++ a5)

/-- Result of the public `reconnect`: `rejectedNow` is true exactly when the
promise is rejected synchronously because no data callback is registered. -/
structure RecRes where
  st : Service
  trace : List Action
  rejectedNow : Bool
  sub : Option SubRes
deriving DecidableEq, Repr

/-- `reconnect` (part_005 lines 727-777): reject immediately — mutating
nothing — when no data callback is registered; otherwise tear down, reset
the attempt counter, and resubscribe with the stored callbacks. -/
def reconnect (s : Service) (t : String) : RecRes :=
  match mfind s.callbacks t with
  | none => ⟨s, [], true, none⟩
  | some cb =>
      let scb := mfind s.connectionStatusCallbacks t
      let pre := reconnectPre s t
      let r := subscribeToTaskSync pre.1 t cb scb
      ⟨r.st, pre.2 ++ r.trace, false, some r⟩

/-- `n` back-to-back invocations of `attemptReconnect` with nothing running
in between (the state part of iterating its synchronous part). -/
def retryIter (s : Service) (t : String) (cb : Nat) : Nat → Service
  | 0 => s
  | n + 1 => (attemptReconnect (retryIter s t cb n) t cb).1

/-- The scheduled backoff retry firing (part_005 lines 592-638), synchronous
part: only when the state is still `disconnected` and the callback is still
registered, close and drop any existing socket (code 1000 "Reconnecting",
skipped when it is already CLOSED) and re-run `subscribeToTask` with the
captured callbacks — which, at part_005 line 118, resets the attempt counter
to 0 before opening the new socket. -/
def retryFire (s : Service) (t : String) (cb : Nat) (scb : Option Nat)
    (oldReady : ReadyState) : Service × List Action × Option SubRes :=
  if mfind s.connectionState t = some ConnState.disconnected ∧ mhas s.callbacks t = true then
    let p0 :=
      match mfind s.connections t with
      | some sock =>
          ({ s with connections := mdel s.connections t },
           if oldReady ≠ ReadyState.CLOSED then
             [Action.closeSocket sock 1000 "Reconnecting"]
           else [])
      | none => (s, ([] : List Action))
    let r := subscribeToTaskSync p0.1 t cb scb
    (r.st, p0.2 ++ r.trace, some r)
  else (s, [], none)

end V5

/-- State of the earlier-revision service (src/unnamed/part_004), one field
per `Map` field of that class; it has no heartbeat machinery. -/
structure Service4 where
  connections : SMap Nat := []
  callbacks : SMap Nat := []
  reconnectTimeouts : SMap Nat := []
  reconnectAttempts : SMap Nat := []
  pingIntervals : SMap Nat := []
  connectionState : SMap ConnState := []
  connectionStatusCallbacks : SMap Nat := []
  baseUrl : String := ""
  nextId : Nat := 0
deriving DecidableEq, Repr

namespace V4

/-- `maxReconnectAttempts` of part_004. -/
def maxReconnectAttempts : Nat := 10

/-- Result of the synchronous part of part_004's `subscribeToTask`. -/
structure SubRes4 where
  st : Service4
  trace : List Action
  settle : Settle
deriving DecidableEq, Repr

/-- `subscribeToTask` (part_004 lines 69-118), synchronous part.  When a
callback is already registered for the task, the callbacks are updated in
place and the promise resolves immediately; otherwise fresh per-task state
is created and a socket is opened (part_004 stores the socket in
`connections` only in `onopen`). -/
def subscribeToTaskSync (s : Service4) (t : String) (cb : Nat) (scb : Option Nat) :
    SubRes4 :=
  if mhas s.callbacks t then
    let s1 := { s with callbacks := mset s.callbacks t cb }
    let s2 := match scb with
      | some c => { s1 with connectionStatusCallbacks := mset s1.connectionStatusCallbacks t c }
      | none => s1
    ⟨s2, [], Settle.resolved⟩
  else
    let s1 := { s with callbacks := mset s.callbacks t cb }
    let s2 := match scb with
      | some c => { s1 with connectionStatusCallbacks := mset s1.connectionStatusCallbacks t c }
      | none => s1
    let s3 := { s2 with connectionState := mset s2.connectionState t ConnState.connecting }
    let a1 : List Action := match scb with
      | some c => [Action.statusCb c "connecting"]
      | none => []
    let s4 := { s3 with reconnectAttempts := mset s3.reconnectAttempts t 0 }
    let sock := s4.nextId
    let s5 := { s4 with nextId := s4.nextId + 1 }
    let cto := s5.nextId
    let s6 := { s5 with nextId := s5.nextId + 1 }
    ⟨s6,
     a1 ++ [Action.openSocket sock (s.baseUrl ++ "/" ++ t ++ "/ws"),
            Action.setTimer cto 15000],
     Settle.pending⟩

/-- `ws.onmessage` (part_004 lines 168-218): parse (malformed frames are
dropped by the catch), consume `pong`, route `connection_status` to the
status callback, answer `ping` with a pong that carries the original
timestamp and a client timestamp but no task id, and hand everything else to
the data callback. -/
def onmessage (s : Service4) (t : String) (sock : Nat) (raw : Raw) (now : Nat) :
    Service4 × List Action :=
  match raw with
  | Raw.malformed => (s, [])
  | Raw.parsed d =>
    if d.type = "pong" then (s, [])
    else if d.type = "connection_status" then
      match mfind s.connectionStatusCallbacks t with
      | some c => (s, [Action.statusCb c (d.status.getD "undefined")])
      | none => (s, [])
    else if d.type = "ping" then
      (s, [Action.send sock
        { type := "pong", timestamp := d.timestamp, client_timestamp := some now }])
    else
      match mfind s.callbacks t with
      | some cb => (s, [Action.dataCb cb d])
      | none => (s, [])

/-- `clearPingInterval` (part_004 lines 315-320). -/
def clearPingInterval (s : Service4) (t : String) : Service4 × List Action :=
  match mfind s.pingIntervals t with
  | some id => ({ s with pingIntervals := mdel s.pingIntervals t }, [Action.clearTimer id])
  | none => (s, [])

/-- The terminal frame of part_004 (lines 338-343). -/
def terminalFrame4 : Msg :=
  { type := "connection_error", status := some "error",
    error := some "Failed to reconnect after 10 attempts.",
    permanent := some true }

/-- `attemptReconnect` (part_004 lines 322-404), synchronous part. -/
def attemptReconnect (s : Service4) (t : String) (cb : Nat) : Service4 × List Action :=
  let a0 : List Action :=
    match mfind s.reconnectTimeouts t with
    | some id => [Action.clearTimer id]
    | none => []
  let attempts := (mfind s.reconnectAttempts t).getD 0
  if attempts ≥ maxReconnectAttempts then
    let a1 : List Action :=
      if mhas s.callbacks t then [Action.dataCb cb terminalFrame4] else []
    (s, a0 ++ a1)
  else
    let s1 := { s with reconnectAttempts := mset s.reconnectAttempts t (attempts + 1) }
    let delay := min (2 ^ attempts * 1000) 30000
    let timer := s1.nextId
    let s2 := { s1 with nextId := s1.nextId + 1,
                        reconnectTimeouts := mset s1.reconnectTimeouts t timer }
    (s2, a0 ++ [Action.setTimer timer delay])

/-- `ws.onclose` (part_004 lines 241-270): mark `disconnected`, notify the
status callback, clear the ping interval; reconnect only when the close code
is neither 1000 nor 1001 and a callback is registered, else drop the
connection and the attempt counter. -/
def onclose (s : Service4) (t : String) (code : Nat) (cb : Nat) : Service4 × List Action :=
  let s1 := { s with connectionState := mset s.connectionState t ConnState.disconnected }
  let a0 : List Action :=
    match mfind s1.connectionStatusCallbacks t with
    | some c => [Action.statusCb c "disconnected"]
    | none => []
  let p1 := clearPingInterval s1 t
  if (code ≠ 1000 ∧ code ≠ 1001) ∧ mhas p1.1.callbacks t then
    let p2 := attemptReconnect p1.1 t cb
    (p2.1, a0 ++ p1.2 ++ p2.2)
  else
    ({ p1.1 with connections := mdel p1.1.connections t,
                 reconnectAttempts := mdel p1.1.reconnectAttempts t },
     a0 ++ p1.2)

end V4

/-- Recognises data-callback invocations in a trace. -/
def isDataCb : Action → Bool
  | Action.dataCb _ _ => true
  | _ => false

/-- Recognises backoff/timer arming in a trace. -/
def isSetTimer : Action → Bool
  | Action.setTimer _ _ => true
  | _ => false

/-- Recognises outbound frames in a trace. -/
def isSend : Action → Bool
  | Action.send _ _ => true
  | _ => false

/-- A fully live per-task state for task `"t"` of the current revision:
socket 0, data callback 1, status callback 2, ping interval 3, heartbeat
checker 4, attempt counter 0, state `connected`. -/
def liveState : Service :=
  { connections := [("t", 0)], callbacks := [("t", 1)],
    connectionStatusCallbacks := [("t", 2)],
    reconnectTimeouts := [],
    reconnectAttempts := [("t", 0)],
    pingIntervals := [("t", 3)],
    heartbeatCheckIntervals := [("t", 4)],
    connectionState := [("t", ConnState.connected)],
    lastHeartbeatReceived := [("t", 1000)],
    baseUrl := "wss://api/downloads", nextId := 10 }

/-- `liveState` after the hello-ack timeout (handle 7) was stored under key
`"hello_ack_t"` and with a pending per-task backoff timer (handle 8). -/
def helloAckState : Service :=
  { liveState with reconnectTimeouts := [("hello_ack_t", 7), ("t", 8)] }

/-- A state for task `"t"` whose reconnect attempt counter has reached the
ceiling of 15, with the data callback still registered. -/
def maxedState : Service :=
  { liveState with reconnectAttempts := [("t", 15)],
                   connections := [],
                   pingIntervals := [],
                   heartbeatCheckIntervals := [],
                   connectionState := [("t", ConnState.disconnected)] }

/-- A fresh service with no per-task state. -/
def freshService : Service := { baseUrl := "wss://api/downloads" }

/-- A fully live per-task state for task `"t"` of the earlier revision. -/
def s4live : Service4 :=
  { connections := [("t", 0)], callbacks := [("t", 1)],
    connectionStatusCallbacks := [("t", 2)],
    reconnectAttempts := [("t", 0)], pingIntervals := [("t", 3)],
    connectionState := [("t", ConnState.connected)],
    baseUrl := "wss://x", nextId := 10 }

/-- Backoff-bug scenario, step 0: task `"t"` disconnected with attempt
counter 0, as right after a first transport failure was recorded. -/
def c2s0 : Service := { liveState with connectionState := [("t", ConnState.disconnected)] }

/-- Backoff-bug scenario, step 1: the first reconnect trigger — arms the
first retry (timer 10) after 1000 ms and leaves the counter at 1. -/
def c2trig1 : Service × List Action := V5.attemptReconnect c2s0 "t" 1

/-- Backoff-bug scenario, step 2: the scheduled retry fires and re-runs
`subscribeToTask`, which resets the counter to 0 (part_005 line 118) before
opening socket 11 with connection timeout 12. -/
def c2retry : Service × List Action × Option V5.SubRes :=
  V5.retryFire c2trig1.1 "t" 1 (some 2) ReadyState.CLOSED

/-- Backoff-bug scenario, step 3: the reopened socket fires its error event —
the second consecutive failure. -/
def c2err2 : Service × List Action × Settle :=
  V5.onerror c2retry.1 "t" 1 12 Settle.pending

/-- Open-failure scenario, step 1: a fresh `subscribeToTask` for task `"t"`
(data callback 1, status callback 2). -/
def c6sub : V5.SubRes := V5.subscribeToTaskSync freshService "t" 1 (some 2)

/-- Open-failure scenario, step 2: the transport fires its error event
before any open event. -/
def c6err : Service × List Action × Settle :=
  V5.onerror c6sub.st "t" 1 c6sub.cto c6sub.settle

theorem mfind_mset_self {α : Type} (m : SMap α) (k : String) (v : α) :
    mfind (mset m k v) k = some v := by
  induction m with
  | nil => simp [mset, mfind]
  | cons hd tl ih =>
      obtain ⟨a, b⟩ := hd
      by_cases h : a = k
      · simp [mset, h, mfind]
      · simp [mset, h, mfind, ih]

theorem mfind_mset_of_ne {α : Type} (m : SMap α) {k key : String} (v : α)
    (h : key ≠ k) : mfind (mset m k v) key = mfind m key := by
  induction m with
  | nil => simp [mset, mfind, Ne.symm h]
  | cons hd tl ih =>
      obtain ⟨a, b⟩ := hd
      by_cases ha : a = k
      · subst ha
        simp [mset, mfind, Ne.symm h]
      · by_cases hk : a = key
        · simp [mset, ha, mfind, hk, h]
        · simp [mset, ha, mfind, hk, ih]

theorem mfind_mdel_self {α : Type} (m : SMap α) (k : String) :
    mfind (mdel m k) k = none := by
  induction m with
  | nil => simp [mdel, mfind]
  | cons hd tl ih =>
      obtain ⟨a, b⟩ := hd
      by_cases h : a = k
      · simpa [mdel, h] using ih
      · simp [mdel, h, mfind, ih]

theorem mfind_mdel_of_ne {α : Type} (m : SMap α) {k key : String}
    (h : key ≠ k) : mfind (mdel m k) key = mfind m key := by
  induction m with
  | nil => simp [mdel]
  | cons hd tl ih =>
      obtain ⟨a, b⟩ := hd
      by_cases ha : a = k
      · subst ha
        simp [mdel, mfind, Ne.symm h, ih]
      · by_cases hk : a = key
        · simp [mdel, ha, mfind, hk, h]
        · simp [mdel, ha, mfind, hk, ih]

theorem mhas_mset_self {α : Type} (m : SMap α) (k : String) (v : α) :
    mhas (mset m k v) k = true := by
  simp [mhas, mfind_mset_self]

theorem mhas_mdel_self {α : Type} (m : SMap α) (k : String) :
    mhas (mdel m k) k = false := by
  simp [mhas, mfind_mdel_self]

theorem hello_key_ne (t : String) : ("hello_ack_" ++ t) ≠ t := by
  intro h
  have hlen : ("hello_ack_" ++ t).length = t.length := congrArg String.length h
  rw [String.length_append] at hlen
  have h10 : "hello_ack_".length = 10 := rfl
  omega

/-- Helper: `unsubscribeFromTask` closes the stored socket with code 1000. -/
theorem unsub_mem_close (s : Service) (t : String) (os : Nat)
    (h : mfind s.connections t = some os) :
    Action.closeSocket os 1000 "Client unsubscribed" ∈ (V5.unsubscribeFromTask s t).2 := by
  unfold V5.unsubscribeFromTask V5.clearPingInterval V5.clearHeartbeatChecker
  cases h1 : mfind s.reconnectTimeouts t <;>
  cases h2 : mfind s.pingIntervals t <;>
  cases h3 : mfind s.heartbeatCheckIntervals t <;>
    simp_all

/-- C1, counterexample.  The claim says a second `subscribeToTask` for a Task
ID with a live channel replaces the callback in place, resolves immediately,
and opens no new Channel.  On the current revision (part_005) it instead
tears the existing connection down (closing socket 0) and opens a brand-new
socket, with the promise still pending. -/
theorem C1_cex :
    (V5.subscribeToTaskSync liveState "t" 1 none).settle = Settle.pending ∧
    Action.openSocket 10 "wss://api/downloads/t/ws"
      ∈ (V5.subscribeToTaskSync liveState "t" 1 none).trace ∧
    Action.closeSocket 0 1000 "Client unsubscribed"
      ∈ (V5.subscribeToTaskSync liveState "t" 1 none).trace := by
  decide

/-- C1 (amended): in the current revision, subscribing to a Task ID that
already has a live Channel is not idempotent — the service first tears down
the existing per-task state (closing the stored socket with code 1000
"Client unsubscribed") and then creates fresh state and opens a new Channel;
the returned promise is pending, settled only by the new channel's events.
At most one Channel remains stored for the Task ID. -/
theorem C1_amended (s : Service) (t : String) (cb : Nat) (scb : Option Nat) (os : Nat)
    (h : mfind s.connections t = some os) :
    (V5.subscribeToTaskSync s t cb scb).settle = Settle.pending ∧
    mfind (V5.subscribeToTaskSync s t cb scb).st.callbacks t = some cb ∧
    mfind (V5.subscribeToTaskSync s t cb scb).st.connections t =
      some (V5.subscribeToTaskSync s t cb scb).sock ∧
    mfind (V5.subscribeToTaskSync s t cb scb).st.reconnectAttempts t = some 0 ∧
    Action.closeSocket os 1000 "Client unsubscribed"
      ∈ (V5.subscribeToTaskSync s t cb scb).trace ∧
    Action.openSocket (V5.subscribeToTaskSync s t cb scb).sock
        (s.baseUrl ++ "/" ++ t ++ "/ws") ∈ (V5.subscribeToTaskSync s t cb scb).trace := by
  have hhas : mhas s.connections t = true := by simp [mhas, h]
  have hclose := unsub_mem_close s t os h
  unfold V5.subscribeToTaskSync
  cases scb <;> simp_all [mfind_mset_self, List.mem_append]

/-- C1, witness for the amended theorem at a concrete live state. -/
theorem C1_witness :
    (V5.subscribeToTaskSync liveState "t" 5 (some 6)).settle = Settle.pending ∧
    mfind (V5.subscribeToTaskSync liveState "t" 5 (some 6)).st.callbacks "t" = some 5 ∧
    mfind (V5.subscribeToTaskSync liveState "t" 5 (some 6)).st.connections "t" =
      some (V5.subscribeToTaskSync liveState "t" 5 (some 6)).sock ∧
    mfind (V5.subscribeToTaskSync liveState "t" 5 (some 6)).st.reconnectAttempts "t" = some 0 ∧
    Action.closeSocket 0 1000 "Client unsubscribed"
      ∈ (V5.subscribeToTaskSync liveState "t" 5 (some 6)).trace ∧
    Action.openSocket (V5.subscribeToTaskSync liveState "t" 5 (some 6)).sock
        (liveState.baseUrl ++ "/" ++ "t" ++ "/ws")
      ∈ (V5.subscribeToTaskSync liveState "t" 5 (some 6)).trace :=
  C1_amended liveState "t" 5 (some 6) 0 (by decide)

/-- Helper: `clearPingInterval` only touches the ping-interval map. -/
theorem clearPing_attempts (s : Service) (t : String) :
    (V5.clearPingInterval s t).1.reconnectAttempts = s.reconnectAttempts := by
  unfold V5.clearPingInterval
  split <;> rfl

theorem clearPing_callbacks (s : Service) (t : String) :
    (V5.clearPingInterval s t).1.callbacks = s.callbacks := by
  unfold V5.clearPingInterval
  split <;> rfl

theorem clearPing_reconnectTimeouts (s : Service) (t : String) :
    (V5.clearPingInterval s t).1.reconnectTimeouts = s.reconnectTimeouts := by
  unfold V5.clearPingInterval
  split <;> rfl

theorem clearPing_connState (s : Service) (t : String) :
    (V5.clearPingInterval s t).1.connectionState = s.connectionState := by
  unfold V5.clearPingInterval
  split <;> rfl

theorem clearPing_statusCbs (s : Service) (t : String) :
    (V5.clearPingInterval s t).1.connectionStatusCallbacks = s.connectionStatusCallbacks := by
  unfold V5.clearPingInterval
  split <;> rfl

theorem clearPing_hb (s : Service) (t : String) :
    (V5.clearPingInterval s t).1.heartbeatCheckIntervals = s.heartbeatCheckIntervals := by
  unfold V5.clearPingInterval
  split <;> rfl

theorem clearPing_connections (s : Service) (t : String) :
    (V5.clearPingInterval s t).1.connections = s.connections := by
  unfold V5.clearPingInterval
  split <;> rfl

theorem clearPing_nextId (s : Service) (t : String) :
    (V5.clearPingInterval s t).1.nextId = s.nextId := by
  unfold V5.clearPingInterval
  split <;> rfl

/-- Helper: `clearHeartbeatChecker` only touches the heartbeat-checker map. -/
theorem clearHb_attempts (s : Service) (t : String) :
    (V5.clearHeartbeatChecker s t).1.reconnectAttempts = s.reconnectAttempts := by
  unfold V5.clearHeartbeatChecker
  split <;> rfl

theorem clearHb_callbacks (s : Service) (t : String) :
    (V5.clearHeartbeatChecker s t).1.callbacks = s.callbacks := by
  unfold V5.clearHeartbeatChecker
  split <;> rfl

theorem clearHb_reconnectTimeouts (s : Service) (t : String) :
    (V5.clearHeartbeatChecker s t).1.reconnectTimeouts = s.reconnectTimeouts := by
  unfold V5.clearHeartbeatChecker
  split <;> rfl

theorem clearHb_connState (s : Service) (t : String) :
    (V5.clearHeartbeatChecker s t).1.connectionState = s.connectionState := by
  unfold V5.clearHeartbeatChecker
  split <;> rfl

theorem clearHb_statusCbs (s : Service) (t : String) :
    (V5.clearHeartbeatChecker s t).1.connectionStatusCallbacks = s.connectionStatusCallbacks := by
  unfold V5.clearHeartbeatChecker
  split <;> rfl

theorem clearHb_ping (s : Service) (t : String) :
    (V5.clearHeartbeatChecker s t).1.pingIntervals = s.pingIntervals := by
  unfold V5.clearHeartbeatChecker
  split <;> rfl

theorem clearHb_connections (s : Service) (t : String) :
    (V5.clearHeartbeatChecker s t).1.connections = s.connections := by
  unfold V5.clearHeartbeatChecker
  split <;> rfl

theorem clearHb_nextId (s : Service) (t : String) :
    (V5.clearHeartbeatChecker s t).1.nextId = s.nextId := by
  unfold V5.clearHeartbeatChecker
  split <;> rfl

/-- Helper: starting from attempt counter 0, `k` consecutive reconnect
triggers leave the counter at exactly `k`, for `k` up to the ceiling. -/
theorem retryIter_attempts (s : Service) (t : String) (cb : Nat)
    (h0 : mfind s.reconnectAttempts t = some 0) :
    ∀ k, k ≤ V5.maxReconnectAttempts →
      mfind (V5.retryIter s t cb k).reconnectAttempts t = some k := by
  intro k
  induction k with
  | zero => intro _; simpa [V5.retryIter] using h0
  | succ n ih =>
      intro hk
      have ha := ih (Nat.le_of_succ_le hk)
      have hlt : ¬ (n ≥ V5.maxReconnectAttempts) := by
        simp only [V5.maxReconnectAttempts] at hk ⊢
        omega
      unfold V5.retryIter V5.attemptReconnect
      simp [ha, hlt, mfind_mset_self]

/-- Helper: `attemptReconnect`'s per-call formula, for `n` back-to-back
invocations with nothing executing in between: the n-th such call arms a
timer of `min (2 ^ (n-1) * 1000) 30000` ms with the counter incremented to
`n`, and `ws.onopen` resets the counter to 0.  This sequence is not what the
program executes past the first call: an executed retry re-runs
`subscribeToTask`, which resets the counter to 0 before the next failure can
trigger again (see the backoff-bug scenario below). -/
theorem backoff_formula_uninterrupted (s : Service) (t : String) (cb : Nat) (n : Nat)
    (h0 : mfind s.reconnectAttempts t = some 0)
    (h1 : 1 ≤ n) (h15 : n ≤ V5.maxReconnectAttempts) :
    Action.setTimer (V5.retryIter s t cb (n - 1)).nextId (min (2 ^ (n - 1) * 1000) 30000)
      ∈ (V5.attemptReconnect (V5.retryIter s t cb (n - 1)) t cb).2 ∧
    mfind (V5.retryIter s t cb n).reconnectAttempts t = some n ∧
    ∀ (s2 : Service) (cto now : Nat) (st : Settle),
      mfind (V5.onopen s2 t cto now st).1.reconnectAttempts t = some 0 := by
  refine ⟨?_, retryIter_attempts s t cb h0 n h15, ?_⟩
  · have ha := retryIter_attempts s t cb h0 (n - 1) (by omega)
    have hlt : ¬ ((n - 1) ≥ V5.maxReconnectAttempts) := by
      simp only [V5.maxReconnectAttempts] at h15 ⊢
      omega
    unfold V5.attemptReconnect
    simp [ha, hlt, List.mem_append]
  · intro s2 cto now st
    unfold V5.onopen
    simp [clearPing_attempts, clearHb_attempts, mfind_mset_self]

/-- C2: the claim says consecutive reconnect failures wait
`min (2 ^ (n-1) * 1000) 30000` ms before the n-th retry (1 s, 2 s, 4 s, ...)
with the counter reset to 0 only on the next successful open.  Evidence of
the code bug: the first trigger arms a 1000 ms retry and sets the counter
to 1, but the executed retry re-runs `subscribeToTask`, which resets the
counter to 0 before its socket even opens, so the second consecutive failure
arms exactly one timer of 1000 ms again — not the claimed 2000 ms — and the
counter is back at 1.  Real consecutive failures therefore always wait
1000 ms, and the 2 s/4 s/.../30 s delays and the 15-attempt ceiling are
unreachable through the executed-retry path, contradicting the backoff
comment at part_005 line 586. -/
theorem C2_bug :
    Action.setTimer 10 1000 ∈ c2trig1.2 ∧
    mfind c2trig1.1.reconnectAttempts "t" = some 1 ∧
    (c2retry.2.2.map fun r => r.cto) = some 12 ∧
    mfind c2retry.1.reconnectAttempts "t" = some 0 ∧
    c2err2.2.1.filter isSetTimer = [Action.setTimer 13 1000] ∧
    Action.setTimer 13 2000 ∉ c2err2.2.1 ∧
    mfind c2err2.1.reconnectAttempts "t" = some 1 := by
  decide

/-- C3, counterexample.  The claim says that once the attempt counter
reaches the maximum the data callback receives the terminal
`connection_error` frame exactly once, never more.  On the current revision
every further reconnect trigger at the ceiling delivers the frame again: two
consecutive triggers produce two terminal frames. -/
theorem C3_cex :
    ((V5.attemptReconnect maxedState "t" 1).2 ++
        (V5.attemptReconnect (V5.attemptReconnect maxedState "t" 1).1 "t" 1).2).countP
      isDataCb = 2 ∧
    (V5.attemptReconnect maxedState "t" 1).2 = [Action.dataCb 1 V5.terminalFrame] ∧
    (V5.attemptReconnect (V5.attemptReconnect maxedState "t" 1).1 "t" 1).2
      = [Action.dataCb 1 V5.terminalFrame] := by
  decide

/-- C3 (amended): once the attempt counter has reached the maximum, a
reconnect trigger schedules no retry timer and leaves the state unchanged,
and each such trigger (with the data callback still registered) delivers
exactly one terminal `connection_error` frame marked permanent — so the
callback receives one frame per trigger, not one frame overall. -/
theorem C3_amended (s : Service) (t : String) (cb : Nat)
    (hmax : (mfind s.reconnectAttempts t).getD 0 ≥ V5.maxReconnectAttempts)
    (hcb : mhas s.callbacks t = true) :
    (V5.attemptReconnect s t cb).1 = s ∧
    (V5.attemptReconnect s t cb).2.countP isDataCb = 1 ∧
    Action.dataCb cb V5.terminalFrame ∈ (V5.attemptReconnect s t cb).2 ∧
    (V5.attemptReconnect s t cb).2.countP isSetTimer = 0 := by
  unfold V5.attemptReconnect
  cases hrt : mfind s.reconnectTimeouts t <;>
    simp [hmax, hcb, isDataCb, isSetTimer, hrt]

/-- C3, witness for the amended theorem at a concrete maxed-out state. -/
theorem C3_witness :
    (V5.attemptReconnect maxedState "t" 9).1 = maxedState ∧
    (V5.attemptReconnect maxedState "t" 9).2.countP isDataCb = 1 ∧
    Action.dataCb 9 V5.terminalFrame ∈ (V5.attemptReconnect maxedState "t" 9).2 ∧
    (V5.attemptReconnect maxedState "t" 9).2.countP isSetTimer = 0 :=
  C3_amended maxedState "t" 9 (by decide) (by decide)

/-- C4, counterexample.  The claim says `unsubscribeFromTask` clears every
timer associated with the Task ID, including the hello-ack timeout.  The
hello-ack timeout is stored in `reconnectTimeouts` under the prefixed key
`"hello_ack_" ++ taskId`, which `unsubscribeFromTask` never clears: its
entry (handle 7) survives and no `clearTimer 7` is emitted. -/
theorem C4_cex :
    mfind (V5.unsubscribeFromTask helloAckState "t").1.reconnectTimeouts "hello_ack_t"
      = some 7 ∧
    Action.clearTimer 7 ∉ (V5.unsubscribeFromTask helloAckState "t").2 := by
  decide

/-- C4 (amended): `unsubscribeFromTask` deletes every map entry stored under
the Task ID itself (callbacks, status callbacks, backoff timer, ping
interval, heartbeat checker, connection, attempt counter, state, heartbeat
timestamp), clears the timers it finds there, closes the stored socket with
code 1000, and `getConnectionState` afterwards returns `disconnected`; but
the hello-ack timeout, stored under the prefixed key `"hello_ack_" ++
taskId`, is left untouched, and exceeding the maximum reconnect attempts
destroys nothing at all (`attemptReconnect` at the ceiling returns the state
unchanged). -/
theorem C4_amended (s : Service) (t : String) :
    mfind (V5.unsubscribeFromTask s t).1.callbacks t = none ∧
    mfind (V5.unsubscribeFromTask s t).1.connectionStatusCallbacks t = none ∧
    mfind (V5.unsubscribeFromTask s t).1.reconnectTimeouts t = none ∧
    mfind (V5.unsubscribeFromTask s t).1.pingIntervals t = none ∧
    mfind (V5.unsubscribeFromTask s t).1.heartbeatCheckIntervals t = none ∧
    mfind (V5.unsubscribeFromTask s t).1.connections t = none ∧
    mfind (V5.unsubscribeFromTask s t).1.reconnectAttempts t = none ∧
    mfind (V5.unsubscribeFromTask s t).1.connectionState t = none ∧
    mfind (V5.unsubscribeFromTask s t).1.lastHeartbeatReceived t = none ∧
    V5.getConnectionState (V5.unsubscribeFromTask s t).1 t = ConnState.disconnected ∧
    (∀ id, mfind s.pingIntervals t = some id →
       Action.clearTimer id ∈ (V5.unsubscribeFromTask s t).2) ∧
    (∀ id, mfind s.heartbeatCheckIntervals t = some id →
       Action.clearTimer id ∈ (V5.unsubscribeFromTask s t).2) ∧
    (∀ id, mfind s.reconnectTimeouts t = some id →
       Action.clearTimer id ∈ (V5.unsubscribeFromTask s t).2) ∧
    (∀ os, mfind s.connections t = some os →
       Action.closeSocket os 1000 "Client unsubscribed" ∈ (V5.unsubscribeFromTask s t).2) ∧
    mfind (V5.unsubscribeFromTask s t).1.reconnectTimeouts ("hello_ack_" ++ t) =
      mfind s.reconnectTimeouts ("hello_ack_" ++ t) ∧
    (∀ cb, (mfind s.reconnectAttempts t).getD 0 ≥ V5.maxReconnectAttempts →
       (V5.attemptReconnect s t cb).1 = s) := by
  have hha : ∀ (m : SMap Nat), mfind (mdel m t) ("hello_ack_" ++ t) =
      mfind m ("hello_ack_" ++ t) :=
    fun m => mfind_mdel_of_ne m (hello_key_ne t)
  unfold V5.unsubscribeFromTask V5.clearPingInterval V5.clearHeartbeatChecker
    V5.attemptReconnect V5.getConnectionState
  cases h1 : mfind s.reconnectTimeouts t <;>
  cases h2 : mfind s.pingIntervals t <;>
  cases h3 : mfind s.heartbeatCheckIntervals t <;>
  cases h4 : mfind s.connections t <;>
    simp_all [mfind_mdel_self, hha]

/-- C4, witness for the amended theorem at a concrete live state with a
stored hello-ack timeout. -/
theorem C4_witness :
    mfind (V5.unsubscribeFromTask helloAckState "t").1.connections "t" = none ∧
    V5.getConnectionState (V5.unsubscribeFromTask helloAckState "t").1 "t"
      = ConnState.disconnected ∧
    Action.clearTimer 3 ∈ (V5.unsubscribeFromTask helloAckState "t").2 ∧
    Action.clearTimer 8 ∈ (V5.unsubscribeFromTask helloAckState "t").2 ∧
    Action.closeSocket 0 1000 "Client unsubscribed"
      ∈ (V5.unsubscribeFromTask helloAckState "t").2 := by
  obtain ⟨h1, h2, h3, h4, h5, h6, h7, h8, h9, h10, h11, h12, h13, h14, h15, h16⟩ :=
    C4_amended helloAckState "t"
  exact ⟨h6, h10, h11 3 (by decide), h13 8 (by decide), h14 0 (by decide)⟩

/-- C5, counterexample.  The claim says a close event with code 1001 never
triggers the Reconnection Scheduler.  On the current revision only code 1000
is exempt: a close with code 1001 on a live connected task schedules a
backoff retry (timer 10 armed after 1000 ms) and increments the attempt
counter. -/
theorem C5_cex :
    Action.setTimer 10 1000 ∈ (V5.onclose liveState "t" 1001).2 ∧
    mfind (V5.onclose liveState "t" 1001).1.reconnectAttempts "t" = some 1 := by
  decide

/-- C5 (amended): in the current revision the close handler is a no-op when
the recorded state is already `disconnected`; otherwise a close with code
1000 never schedules a retry, while a close with any code other than 1000 —
including 1001 — schedules exactly one backoff retry and increments the
counter (when a callback is registered and the ceiling has not been
reached).  In the earlier revision (part_004) code 1001 also suppresses the
scheduler. -/
theorem C5_amended (s : Service) (t : String) (code : Nat) :
    (mfind s.connectionState t = some ConnState.disconnected →
       V5.onclose s t code = (s, [])) ∧
    (mfind s.connectionState t ≠ some ConnState.disconnected →
       (code = 1000 →
          mfind (V5.onclose s t code).1.reconnectAttempts t = mfind s.reconnectAttempts t ∧
          (V5.onclose s t code).2.countP isSetTimer = 0) ∧
       (code ≠ 1000 → mhas s.callbacks t = true →
          (mfind s.reconnectAttempts t).getD 0 < V5.maxReconnectAttempts →
          mfind (V5.onclose s t code).1.reconnectAttempts t =
            some ((mfind s.reconnectAttempts t).getD 0 + 1) ∧
          (V5.onclose s t code).2.countP isSetTimer = 1)) ∧
    (∀ (s4 : Service4) (cb : Nat),
       (V4.onclose s4 t 1001 cb).2.countP isSetTimer = 0) := by
  refine ⟨?_, ?_, ?_⟩
  · intro h
    unfold V5.onclose
    simp [h]
  · intro hnd
    constructor
    · intro hc
      subst hc
      unfold V5.onclose V5.clearPingInterval V5.clearHeartbeatChecker
      cases h0 : mfind s.connectionStatusCallbacks t <;>
      cases h2 : mfind s.pingIntervals t <;>
      cases h3 : mfind s.heartbeatCheckIntervals t <;>
        simp_all [isSetTimer]
    · intro hc hcb hlt
      rcases hcb' : mfind s.callbacks t with _ | cb0
      · rw [mhas, hcb'] at hcb
        simp at hcb
      unfold V5.onclose V5.attemptReconnect
      cases h0 : mfind s.connectionStatusCallbacks t <;>
      cases h2 : mfind s.pingIntervals t <;>
      cases h3 : mfind s.heartbeatCheckIntervals t <;>
      cases h4 : mfind s.reconnectTimeouts t <;>
        simp_all [isSetTimer, V5.clearPingInterval, V5.clearHeartbeatChecker,
          mfind_mset_self, Nat.not_le.mpr hlt]
  · intro s4 cb
    unfold V4.onclose V4.clearPingInterval
    cases h0 : mfind s4.connectionStatusCallbacks t <;>
    cases h2 : mfind s4.pingIntervals t <;>
      simp_all [isSetTimer]

/-- C5, witness for the amended theorem at a concrete live state. -/
theorem C5_witness :
    (V5.onclose { liveState with connectionState := [("t", ConnState.disconnected)] } "t" 1006
      = ({ liveState with connectionState := [("t", ConnState.disconnected)] }, [])) ∧
    (V5.onclose liveState "t" 1000).2.countP isSetTimer = 0 ∧
    mfind (V5.onclose liveState "t" 1006).1.reconnectAttempts "t" = some 1 ∧
    (V5.onclose liveState "t" 1006).2.countP isSetTimer = 1 ∧
    (V4.onclose s4live "t" 1001 1).2.countP isSetTimer = 0 := by
  refine ⟨(C5_amended { liveState with connectionState := [("t", ConnState.disconnected)] }
      "t" 1006).1 (by decide), ?_, ?_, ?_,
    (C5_amended liveState "t" 1001).2.2 s4live 1⟩
  · exact ((C5_amended liveState "t" 1000).2.1 (by decide)).1 rfl |>.2
  · exact (((C5_amended liveState "t" 1006).2.1 (by decide)).2 (by decide) (by decide)
      (by decide)).1
  · exact (((C5_amended liveState "t" 1006).2.1 (by decide)).2 (by decide) (by decide)
      (by decide)).2

/-- C6: the claim says the subscribe promise always settles, rejecting when
the transport errors before open or after the 15-second timeout.  Evidence
of the code bug: on a fresh subscribe followed by a transport error before
open, the promise stays pending forever — the error handler's reject guard
`!connections.has(taskId)` is always false because `subscribeToTask` stores
the socket at creation, and the handler also clears the 15-second
connection timeout; even if that timeout fired, the state is no longer
`connecting`, so its reject branch is dead too. -/
theorem C6_thm :
    c6sub.settle = Settle.pending ∧
    mhas c6sub.st.connections "t" = true ∧
    c6err.2.2 = Settle.pending ∧
    Action.clearTimer c6sub.cto ∈ c6err.2.1 ∧
    (V5.connectionTimeoutFire c6err.1 "t" c6sub.sock (some 2) c6err.2.2).2.2
      = Settle.pending := by
  decide

/-- Helpers about the `onmessage` prologue: it stamps the heartbeat, leaves
the state `connected`, changes no other map, and emits at most one
status-callback invocation. -/
theorem hp_lastHb (s : Service) (t : String) (now : Nat) :
    mfind (V5.heartbeatPromote s t now).1.lastHeartbeatReceived t = some now := by
  unfold V5.heartbeatPromote
  dsimp only
  repeat' split
  all_goals simp [mfind_mset_self]

theorem hp_connState (s : Service) (t : String) (now : Nat) :
    mfind (V5.heartbeatPromote s t now).1.connectionState t = some ConnState.connected := by
  unfold V5.heartbeatPromote
  dsimp only
  split
  · split <;> simp [mfind_mset_self]
  · rename_i h
    simp only [ne_eq, Decidable.not_not] at h
    simpa using h

theorem hp_rt (s : Service) (t : String) (now : Nat) :
    (V5.heartbeatPromote s t now).1.reconnectTimeouts = s.reconnectTimeouts := by
  unfold V5.heartbeatPromote
  dsimp only
  repeat' split
  all_goals rfl

theorem hp_ra (s : Service) (t : String) (now : Nat) :
    (V5.heartbeatPromote s t now).1.reconnectAttempts = s.reconnectAttempts := by
  unfold V5.heartbeatPromote
  dsimp only
  repeat' split
  all_goals rfl

theorem hp_ping (s : Service) (t : String) (now : Nat) :
    (V5.heartbeatPromote s t now).1.pingIntervals = s.pingIntervals := by
  unfold V5.heartbeatPromote
  dsimp only
  repeat' split
  all_goals rfl

theorem hp_hb (s : Service) (t : String) (now : Nat) :
    (V5.heartbeatPromote s t now).1.heartbeatCheckIntervals = s.heartbeatCheckIntervals := by
  unfold V5.heartbeatPromote
  dsimp only
  repeat' split
  all_goals rfl

theorem hp_countP_send (s : Service) (t : String) (now : Nat) :
    (V5.heartbeatPromote s t now).2.countP isSend = 0 := by
  unfold V5.heartbeatPromote
  dsimp only
  repeat' split
  all_goals simp [isSend]

theorem hp_countP_data (s : Service) (t : String) (now : Nat) :
    (V5.heartbeatPromote s t now).2.countP isDataCb = 0 := by
  unfold V5.heartbeatPromote
  dsimp only
  repeat' split
  all_goals simp [isDataCb]

theorem hp_filter_send (s : Service) (t : String) (now : Nat) :
    (V5.heartbeatPromote s t now).2.filter isSend = [] := by
  unfold V5.heartbeatPromote
  dsimp only
  repeat' split
  all_goals simp [isSend]

theorem hp_mem_statusCb (s : Service) (t : String) (now : Nat) (c : Nat)
    (hnc : mfind s.connectionState t ≠ some ConnState.connected)
    (hc : mfind s.connectionStatusCallbacks t = some c) :
    Action.statusCb c "connected" ∈ (V5.heartbeatPromote s t now).2 := by
  unfold V5.heartbeatPromote
  simp [hnc, hc]

/-- C7: every inbound frame — malformed ones included — refreshes the
Last-Heartbeat Timestamp, and when the recorded state was not `connected`
the frame promotes it to `connected` and notifies the status callback if one
is registered. -/
theorem C7_theorem (s : Service) (t : String) (sock : Nat) (ready : ReadyState)
    (raw : Raw) (now : Nat) :
    mfind (V5.onmessage s t sock ready raw now).1.lastHeartbeatReceived t = some now ∧
    (mfind s.connectionState t ≠ some ConnState.connected →
       mfind (V5.onmessage s t sock ready raw now).1.connectionState t
         = some ConnState.connected ∧
       (∀ c, mfind s.connectionStatusCallbacks t = some c →
          Action.statusCb c "connected" ∈ (V5.onmessage s t sock ready raw now).2)) := by
  refine ⟨?_, fun hnc => ⟨?_, fun c hc => ?_⟩⟩
  · unfold V5.onmessage
    dsimp only
    repeat' split
    all_goals simp [hp_lastHb]
  · unfold V5.onmessage
    dsimp only
    repeat' split
    all_goals simp [hp_connState]
  · have hmem := hp_mem_statusCb s t now c hnc hc
    unfold V5.onmessage
    dsimp only
    repeat' split
    all_goals simp [List.mem_append, hmem]

/-- C7, witness: a plain progress frame on a task whose recorded state is
`connecting` refreshes the heartbeat, promotes the state and notifies the
status callback. -/
theorem C7_witness :
    mfind (V5.onmessage { liveState with connectionState := [("t", ConnState.connecting)] }
        "t" 0 ReadyState.OPEN (Raw.parsed { type := "progress" }) 555).1.lastHeartbeatReceived
      "t" = some 555 ∧
    mfind (V5.onmessage { liveState with connectionState := [("t", ConnState.connecting)] }
        "t" 0 ReadyState.OPEN (Raw.parsed { type := "progress" }) 555).1.connectionState
      "t" = some ConnState.connected ∧
    Action.statusCb 2 "connected"
      ∈ (V5.onmessage { liveState with connectionState := [("t", ConnState.connecting)] }
          "t" 0 ReadyState.OPEN (Raw.parsed { type := "progress" }) 555).2 := by
  refine ⟨(C7_theorem { liveState with connectionState := [("t", ConnState.connecting)] }
      "t" 0 ReadyState.OPEN (Raw.parsed { type := "progress" }) 555).1, ?_, ?_⟩
  · exact ((C7_theorem { liveState with connectionState := [("t", ConnState.connecting)] }
      "t" 0 ReadyState.OPEN (Raw.parsed { type := "progress" }) 555).2 (by decide)).1
  · exact ((C7_theorem { liveState with connectionState := [("t", ConnState.connecting)] }
      "t" 0 ReadyState.OPEN (Raw.parsed { type := "progress" }) 555).2 (by decide)).2
      2 (by decide)

/-- C8, counterexample.  The claim says a malformed frame leaves the
per-task state (connection state, timers, counters) unchanged.  On a task
whose recorded state is `connecting`, a malformed frame promotes the state
to `connected` and overwrites the Last-Heartbeat Timestamp, because the
heartbeat/promotion step runs before parsing. -/
theorem C8_cex :
    mfind (V5.onmessage { liveState with connectionState := [("t", ConnState.connecting)] }
        "t" 0 ReadyState.OPEN Raw.malformed 999).1.connectionState "t"
      = some ConnState.connected ∧
    mfind (V5.onmessage { liveState with connectionState := [("t", ConnState.connecting)] }
        "t" 0 ReadyState.OPEN Raw.malformed 999).1.lastHeartbeatReceived "t" = some 999 ∧
    mfind ({ liveState with
        connectionState := [("t", ConnState.connecting)] } : Service).connectionState "t"
      = some ConnState.connecting := by
  decide

/-- C8 (amended): a malformed frame is dropped without reaching the data
callback and without sending anything, and it leaves all timer maps and the
attempt counter untouched; but — like every inbound frame — it refreshes the
Last-Heartbeat Timestamp and forces the recorded state to `connected`
(invoking the status callback when the state was not already `connected`). -/
theorem C8_amended (s : Service) (t : String) (sock : Nat) (ready : ReadyState) (now : Nat) :
    (V5.onmessage s t sock ready Raw.malformed now).2.countP isDataCb = 0 ∧
    (V5.onmessage s t sock ready Raw.malformed now).2.countP isSend = 0 ∧
    (V5.onmessage s t sock ready Raw.malformed now).1.reconnectTimeouts
      = s.reconnectTimeouts ∧
    (V5.onmessage s t sock ready Raw.malformed now).1.reconnectAttempts
      = s.reconnectAttempts ∧
    (V5.onmessage s t sock ready Raw.malformed now).1.pingIntervals = s.pingIntervals ∧
    (V5.onmessage s t sock ready Raw.malformed now).1.heartbeatCheckIntervals
      = s.heartbeatCheckIntervals ∧
    mfind (V5.onmessage s t sock ready Raw.malformed now).1.lastHeartbeatReceived t
      = some now ∧
    mfind (V5.onmessage s t sock ready Raw.malformed now).1.connectionState t
      = some ConnState.connected :=
  ⟨hp_countP_data s t now, hp_countP_send s t now, hp_rt s t now, hp_ra s t now,
   hp_ping s t now, hp_hb s t now, hp_lastHb s t now, hp_connState s t now⟩

/-- C9, counterexample.  The claim says every inbound `ping` produces
exactly one `pong` carrying the original timestamp, the Task ID, and a
client timestamp.  In the earlier revision (part_004) the pong carries no
Task ID at all, and in the current revision (part_005) a ping received while
the socket is not open produces no pong whatsoever. -/
theorem C9_cex :
    (V4.onmessage s4live "t" 0 (Raw.parsed { type := "ping", timestamp := some 42 }) 777).2
      = [Action.send 0 { type := "pong", timestamp := some 42, client_timestamp := some 777 }] ∧
    ({ type := "pong", timestamp := some 42, client_timestamp := some 777 } : Msg).task_id
      = none ∧
    (V5.onmessage liveState "t" 0 ReadyState.CLOSING
        (Raw.parsed { type := "ping", timestamp := some 42 }) 777).2.countP isSend = 0 := by
  decide

/-- C9 (amended): in the current revision a `ping` received while the socket
is open produces exactly one `pong` carrying the original timestamp, the
Task ID and a client timestamp, and a ping received on a non-open socket
produces none; in the earlier revision the pong omits the Task ID.  Neither
inbound `ping` nor inbound `pong` frames ever reach the data callback. -/
theorem C9_amended (s : Service) (t : String) (sock : Nat) (ts : Option Nat) (now : Nat) :
    ((V5.onmessage s t sock ReadyState.OPEN
        (Raw.parsed { type := "ping", timestamp := ts }) now).2.filter isSend
      = [Action.send sock { type := "pong", timestamp := ts, task_id := some t,
                            client_timestamp := some now }]) ∧
    (∀ ready, ready ≠ ReadyState.OPEN →
       (V5.onmessage s t sock ready
           (Raw.parsed { type := "ping", timestamp := ts }) now).2.countP isSend = 0) ∧
    (∀ ready, (V5.onmessage s t sock ready
        (Raw.parsed { type := "ping", timestamp := ts }) now).2.countP isDataCb = 0) ∧
    (∀ ready (m : Msg), m.type = "pong" →
       (V5.onmessage s t sock ready (Raw.parsed m) now).2.countP isDataCb = 0) ∧
    (∀ (s4 : Service4) (m : Msg), m.type = "ping" →
       (V4.onmessage s4 t sock (Raw.parsed m) now).2
         = [Action.send sock { type := "pong", timestamp := m.timestamp,
                               client_timestamp := some now }]) := by
  refine ⟨?_, ?_, ?_, ?_, ?_⟩
  · have hf := hp_filter_send s t now
    simp only [V5.onmessage]
    simp [List.filter_append, hf, isSend]
  · intro ready hr
    have h0 := hp_countP_send s t now
    simp only [V5.onmessage]
    simp [hr, h0]
  · intro ready
    have h0 := hp_countP_data s t now
    by_cases hr : ready = ReadyState.OPEN <;>
      simp only [V5.onmessage] <;>
      simp [hr, h0, List.countP_append, isDataCb]
  · intro ready m hm
    have h0 := hp_countP_data s t now
    simp only [V5.onmessage]
    simp [hm, h0]
  · intro s4 m hm
    unfold V4.onmessage
    simp [hm]

/-- C9, witness for the amended theorem at concrete inputs. -/
theorem C9_witness :
    ((V5.onmessage liveState "t" 0 ReadyState.OPEN
        (Raw.parsed { type := "ping", timestamp := some 42 }) 777).2.filter isSend
      = [Action.send 0 { type := "pong", timestamp := some 42, task_id := some "t",
                         client_timestamp := some 777 }]) ∧
    (V5.onmessage liveState "t" 0 ReadyState.CLOSED
        (Raw.parsed { type := "ping", timestamp := some 42 }) 777).2.countP isSend = 0 ∧
    (V4.onmessage s4live "t" 3 (Raw.parsed { type := "ping", timestamp := some 5 }) 6).2
      = [Action.send 3 { type := "pong", timestamp := some 5, client_timestamp := some 6 }] :=
  ⟨(C9_amended liveState "t" 0 (some 42) 777).1,
   (C9_amended liveState "t" 0 (some 42) 777).2.1 ReadyState.CLOSED (by decide),
   (C9_amended liveState "t" 3 (some 5) 6).2.2.2.2 s4live
     { type := "ping", timestamp := some 5 } rfl⟩

/-- Helper: `subscribeToTaskSync` always leaves the attempt counter at 0. -/
theorem subscribe_attempts (s : Service) (t : String) (cb : Nat) (scb : Option Nat) :
    mfind (V5.subscribeToTaskSync s t cb scb).st.reconnectAttempts t = some 0 := by
  unfold V5.subscribeToTaskSync
  cases scb <;> simp [mfind_mset_self]

/-- Helper: `subscribeToTaskSync` always opens a socket on the task URL. -/
theorem subscribe_mem_open (s : Service) (t : String) (cb : Nat) (scb : Option Nat) :
    Action.openSocket (V5.subscribeToTaskSync s t cb scb).sock
        (s.baseUrl ++ "/" ++ t ++ "/ws")
      ∈ (V5.subscribeToTaskSync s t cb scb).trace := by
  unfold V5.subscribeToTaskSync
  cases scb <;> simp [List.mem_append]

/-- Helper: the teardown phase of `reconnect` leaves the attempt counter at 0. -/
theorem reconnectPre_attempts (s : Service) (t : String) :
    mfind (V5.reconnectPre s t).1.reconnectAttempts t = some 0 := by
  unfold V5.reconnectPre
  cases h0 : mfind s.connections t <;>
  cases h4 : mfind s.reconnectTimeouts t <;>
    simp_all [clearPing_reconnectTimeouts, clearHb_reconnectTimeouts,
      clearPing_attempts, clearHb_attempts, mfind_mset_self]

/-- C10: the public `reconnect` rejects, mutating nothing, when no data
callback is registered for the Task ID; with a registered callback it resets
the Reconnect Attempt Counter to 0 during teardown — before the channel is
reopened — and then opens a fresh Channel, leaving the counter at 0. -/
theorem C10_theorem (s : Service) (t : String) :
    (mfind s.callbacks t = none →
       V5.reconnect s t = ⟨s, [], true, none⟩) ∧
    (∀ cb, mfind s.callbacks t = some cb →
       mfind (V5.reconnectPre s t).1.reconnectAttempts t = some 0 ∧
       (V5.reconnect s t).rejectedNow = false ∧
       mfind (V5.reconnect s t).st.reconnectAttempts t = some 0 ∧
       ∃ sk url, Action.openSocket sk url ∈ (V5.reconnect s t).trace) := by
  constructor
  · intro h
    unfold V5.reconnect
    simp [h]
  · intro cb hcb
    refine ⟨reconnectPre_attempts s t, ?_, ?_, ?_⟩
    · unfold V5.reconnect
      simp [hcb]
    · unfold V5.reconnect
      simp [hcb, subscribe_attempts]
    · refine ⟨(V5.subscribeToTaskSync (V5.reconnectPre s t).1 t cb
          (mfind s.connectionStatusCallbacks t)).sock,
        ((V5.reconnectPre s t).1.baseUrl ++ "/" ++ t ++ "/ws"), ?_⟩
      have hm := subscribe_mem_open (V5.reconnectPre s t).1 t cb
        (mfind s.connectionStatusCallbacks t)
      unfold V5.reconnect
      simp [hcb, List.mem_append, hm]

/-- C10, witness at concrete states with and without a registered callback. -/
theorem C10_witness :
    V5.reconnect { liveState with callbacks := [] } "t"
      = ⟨{ liveState with callbacks := [] }, [], true, none⟩ ∧
    mfind (V5.reconnectPre liveState "t").1.reconnectAttempts "t" = some 0 ∧
    (V5.reconnect liveState "t").rejectedNow = false ∧
    mfind (V5.reconnect liveState "t").st.reconnectAttempts "t" = some 0 :=
  ⟨(C10_theorem { liveState with callbacks := [] } "t").1 (by decide),
   ((C10_theorem liveState "t").2 1 (by decide)).1,
   ((C10_theorem liveState "t").2 1 (by decide)).2.1,
   ((C10_theorem liveState "t").2 1 (by decide)).2.2.1⟩

end SlimThicc
